import Mathlib

/-!
Verification of the agent tool-orchestration engine of the `ai-agent`
repository against its natural-language specification.

The Python sources are shallowly embedded as executable Lean definitions:

* `api/llm/llm.py` (`LLM.run`): the agent loop, tool dispatch, hidden-context
  injection, tool-result batching, authentication failure handling.
* `api/db/mongo.py` (`MongoManager`): `create_message`,
  `update_message_content`, `get_cached_sql_report`.
* `api/llm/token_manager.py` (`TokenManager.get_token`, `_get_jwt_token`).
* `api/agent/tools/execute_sql_tool.py`: `_format_results`,
  `_execute_sqlite`, `_execute_postgresql`, `_execute_oracle`,
  `execute_sql_tool`.
* `build/lib/api/agent/tools/sql_explorer_tool.py`:
  `_get_cache_key_from_config`.

Effectful code is embedded as explicit state passing; externally observable
actions (model-service calls, tool dispatches, transaction operations) are
recorded in trace components so that claims about "no call is made" or
"the transaction is committed" are statements about the embedding's output.
-/

/-! ### Python values and dictionaries

Tool arguments and connection descriptors are Python dicts mapping string
keys to JSON-compatible values.  The embedding keeps the values that occur
in this repository: strings, integers and `None`.  A dict is an association
list in insertion order (Python dicts preserve insertion order and never
hold a key twice). -/

namespace AiAgent

inductive PyVal where
  | str (s : String)
  | int (i : Int)
  | null
  deriving BEq, DecidableEq, Repr

abbrev PyDict := List (String × PyVal)

/-- Python `d.get(k)`: the value at the first (only) occurrence of `k`. -/
def dictGet (d : PyDict) (k : String) : Option PyVal :=
  (d.find? (fun e => e.1 == k)).map (fun e => e.2)

/-- Python `d.get(k, default)`. -/
def dictGetD (d : PyDict) (k : String) (dflt : PyVal) : PyVal :=
  (dictGet d k).getD dflt

/-- Python `d[k] = v`: replace the value if the key is present, else append. -/
def dictSet (d : PyDict) (k : String) (v : PyVal) : PyDict :=
  if d.any (fun e => e.1 == k) then
    d.map (fun e => if e.1 == k then (k, v) else e)
  else
    d ++ [(k, v)]

/-- Python truthiness of an optional string (`if s:`): `None` and the empty
string are falsy. -/
def optTruthy (s : Option String) : Bool :=
  match s with
  | none => false
  | some t => !(t == "")

/-! ### Tools and dispatch (`api/llm/llm.py`, lines 134-168)

A registered tool is a Python function: a name (`__name__`), the parameter
names of its signature (`inspect.signature`), and a body.  Invoking the body
either returns a value (possibly `None`) or raises; the `TypeError` Python
raises when keyword arguments do not match the signature is part of the call
protocol, so `invokeTool` models it before the body runs. -/

inductive ToolOutcome where
  | ok (result : Option String)
  | exn (msg : String)
  deriving BEq, DecidableEq, Repr

structure Tool where
  name : String
  params : List String
  behavior : PyDict → ToolOutcome

/-- `llm.py` lines 141-148: if the tool's signature declares `__thread_id`,
set `tool_args['__thread_id']` to the run's thread id.  No other parameter
is consulted; in particular `__user_id` is never injected.  (The `ValueError`
branch for uninspectable callables is dead for this repository's tools,
which are plain `def`s.) -/
def injectHiddenContext (sigParams : List String) (thread_id : Option String)
    (args : PyDict) : PyDict :=
  if sigParams.contains "__thread_id" then
    dictSet args "__thread_id"
      (match thread_id with
       | some s => PyVal.str s
       | none => PyVal.null)
  else
    args

/-- Python's keyword-call protocol for `func(**tool_args)`: every signature
parameter must be bound and no argument may be unexpected, else the call
raises `TypeError` before the body runs.  (The repository's tools declare
no defaults, so every parameter is required.) -/
def invokeTool (t : Tool) (args : PyDict) : ToolOutcome :=
  if (t.params.all (fun p => args.any (fun e => e.1 == p))
      && args.all (fun e => t.params.contains e.1)) then
    t.behavior args
  else
    ToolOutcome.exn ("missing or unexpected argument for " ++ t.name)

/-- `llm.py` line 163. -/
def unknownToolMsg (name : String) : String :=
  "Error: Tool '" ++ name ++ "' does not exist. Please choose from the available tools."

/-- `llm.py` line 159. -/
def execErrorMsg (name e : String) : String :=
  "Error: Failed to execute tool '" ++ name ++ "'. Reason: " ++ e

/-- `llm.py` lines 134-168: resolve the requested name against the tool list
(`next((f for f in tools if f.__name__ == tool_name), None)`); unknown names
become an error string; the hidden thread id is injected; any exception from
the invocation is caught and becomes an error string; a `None` result is
coerced to `""`. -/
def dispatchToolCall (tools : List Tool) (thread_id : Option String)
    (name : String) (args : PyDict) : String :=
  match tools.find? (fun t => t.name == name) with
  | none => unknownToolMsg name
  | some t =>
    match invokeTool t (injectHiddenContext t.params thread_id args) with
    | ToolOutcome.exn e => execErrorMsg name e
    | ToolOutcome.ok none => ""
    | ToolOutcome.ok (some s) => s

/-! ### The agent loop (`api/llm/llm.py`, `LLM.run`)

The model service is an oracle `Nat → ModelResponse` giving the response of
each `generate_content` call (a transport failure would propagate out of the
loop and is outside these claims).  `Event` records the externally
observable actions of a run: model-service calls and tool dispatches. -/

inductive Part where
  | text (s : String)
  | functionCall (name : String) (args : PyDict)
  | functionResponse (name : String) (content : String)
  deriving BEq, DecidableEq, Repr

structure Message where
  role : String
  parts : List Part
  deriving BEq, DecidableEq, Repr

structure Candidate where
  parts : List Part
  deriving BEq, DecidableEq, Repr

/-- A `generate_content` response: its candidates and its `.text` property
(the aggregated text of the first candidate, `None` when there is none). -/
structure ModelResponse where
  candidates : List Candidate
  text : Option String
  deriving BEq, DecidableEq, Repr

inductive Event where
  | modelCall (i : Nat)
  | toolDispatch (name : String) (args : PyDict)
  deriving BEq, DecidableEq, Repr

/-- `llm.py` lines 91-95: the parts of the candidate that carry a
`function_call`, in order. -/
def extractFuncCalls (c : Candidate) : List (String × PyDict) :=
  c.parts.filterMap (fun p =>
    match p with
    | Part.functionCall n a => some (n, a)
    | _ => none)

/-- `llm.py` lines 101-201: process one turn's tool-call requests in request
order, accumulating the `function_response` parts for the single history
message, the `(request, result)` step trace, and the dispatch events. -/
def processToolCalls (tools : List Tool) (thread_id : Option String)
    (calls : List (String × PyDict)) :
    List Part × List ((String × PyDict) × String) × List Event :=
  calls.foldl
    (fun acc c =>
      let res := dispatchToolCall tools thread_id c.1 c.2
      (acc.1 ++ [Part.functionResponse c.1 res],
       acc.2.1 ++ [(c, res)],
       acc.2.2 ++ [Event.toolDispatch c.1 c.2]))
    ([], [], [])

structure LoopOut where
  finalResult : Option String
  messages : List Message
  steps : List ((String × PyDict) × String)
  events : List Event
  calls : Nat
  deriving Repr

/-- The `for i in range(max_calls)` loop of `LLM.run` (lines 59-245),
recursing on the remaining iteration budget.  Per iteration: call the model
service; no candidates ends the run with `""`; a turn with tool calls
dispatches all of them, appends one `tool`-role message bundling the results
and continues; a turn without tool calls ends the run with the response text
(empty-or-missing text ends it with `""`).  The inter-call delay, DB logging
(which never touches `messages`) and the `jsonResults` post-processing are
not observable in the quantities these claims speak about and are omitted.
`calls` counts `generate_content` invocations, which is exactly the
`iterations` value the metadata reports (`i + 1 if response else i`). -/
def runLoopAux (tools : List Tool) (thread_id : Option String)
    (oracle : Nat → ModelResponse) :
    Nat → Nat → List Message → List ((String × PyDict) × String) →
    List Event → Nat → LoopOut
  | _, 0, msgs, steps, ev, calls => ⟨none, msgs, steps, ev, calls⟩
  | i, fuel + 1, msgs, steps, ev, calls =>
    let resp := oracle i
    match resp.candidates with
    | [] => ⟨some "", msgs, steps, ev ++ [Event.modelCall i], calls + 1⟩
    | cand :: _ =>
      match extractFuncCalls cand with
      | [] =>
        if optTruthy resp.text then
          ⟨some (resp.text.getD ""), msgs, steps, ev ++ [Event.modelCall i], calls + 1⟩
        else
          ⟨some "", msgs, steps, ev ++ [Event.modelCall i], calls + 1⟩
      | fc :: fcs =>
        let out := processToolCalls tools thread_id (fc :: fcs)
        runLoopAux tools thread_id oracle (i + 1) fuel
          (msgs ++ [⟨"tool", out.1⟩])
          (steps ++ out.2.1)
          (ev ++ [Event.modelCall i] ++ out.2.2)
          (calls + 1)

/-- The run metadata `LLM.run` returns: `{}` on authentication failure, else
iterations, message history and intermediate steps. -/
inductive RunMeta where
  | empty
  | mk (iterations : Nat) (history : List Message)
      (steps : List ((String × PyDict) × String))
  deriving BEq, DecidableEq, Repr

/-- `llm.py` lines 38-40. -/
def authErrorMsg : String := "Error: Could not authenticate with LLM service."

/-- `LLM.run` (lines 26-260): `tokenRes` is the outcome of
`token_manager.get_token()`.  On failure the run returns the fixed
authentication-error string and empty metadata at once; otherwise the loop
runs on the history seeded with the single user-role prompt message.  A run
that ends without a final result reports `""`.  The third component is the
run's event trace. -/
def llm_run (tokenRes : Except String String) (prompt : String)
    (max_calls : Nat) (tools : List Tool) (thread_id user_id : Option String)
    (oracle : Nat → ModelResponse) : String × RunMeta × List Event :=
  match tokenRes with
  | Except.error _ => (authErrorMsg, RunMeta.empty, [])
  | Except.ok _ =>
    let out := runLoopAux tools thread_id oracle 0 max_calls
      [⟨"user", [Part.text prompt]⟩] [] [] 0
    (out.finalResult.getD "", RunMeta.mk out.calls out.messages out.steps, out.events)

/-! ### The Mongo persistence collaborator (`api/db/mongo.py`)

A thread document holds its scalar fields and the embedded, ordered message
array.  The store is the `threads` collection; `_id` is unique, so the
`update_one` calls below (which Mongo applies to at most one document) are
embedded as a map over the store. -/

/-- A message's `content` field: a string, or a structured (dict) payload as
used for `tool_call` / `tool_response` messages. -/
inductive MsgContent where
  | str (s : String)
  | obj (fields : PyDict)
  deriving BEq, DecidableEq, Repr

structure DbMessage where
  id : Nat
  role : String
  user_id : String
  type : String
  content : MsgContent
  timestamp : Int
  deriving BEq, DecidableEq, Repr

structure Thread where
  id : String
  title : String
  user_id : String
  last_message : String
  timestamp : Int
  messages : List DbMessage
  deriving BEq, DecidableEq, Repr

abbrev ThreadStore := List Thread

/-- `mongo.py` lines 67-69: `content if isinstance(content, str) else
"Interactive Message"`. -/
def lastMessageSummary (c : MsgContent) : String :=
  match c with
  | MsgContent.str s => s
  | MsgContent.obj _ => "Interactive Message"

/-- `MongoManager.create_message` (lines 65-80): push the message document
onto the thread's `messages` array and set `last_message` to the first 100
characters of the summary and `timestamp` to the message's timestamp. -/
def create_message (store : ThreadStore) (thread_id : String)
    (msg : DbMessage) : ThreadStore :=
  store.map (fun th =>
    if th.id == thread_id then
      { th with
        messages := th.messages ++ [msg],
        last_message := (lastMessageSummary msg.content).take 100,
        timestamp := msg.timestamp }
    else th)

/-- Mongo's positional `$` update: replace the `content` of the first array
element whose `_id` matches. -/
def setFirstContent (msgs : List DbMessage) (mid : Nat)
    (newContent : MsgContent) : List DbMessage :=
  match msgs with
  | [] => []
  | m :: rest =>
    if m.id == mid then { m with content := newContent } :: rest
    else m :: setFirstContent rest mid newContent

/-- `MongoManager.update_message_content` (lines 82-113): `update_one` with
filter `{_id: thread_id, messages._id: message_id}` and update
`{$set: {messages.$.content: new_content}}`.  The surrounding try/except and
the matched/modified-count logging do not change the store. -/
def update_message_content (store : ThreadStore) (thread_id : String)
    (message_id : Nat) (new_content : String) : ThreadStore :=
  store.map (fun th =>
    if th.id == thread_id && th.messages.any (fun m => m.id == message_id) then
      { th with
        messages := setFirstContent th.messages message_id (MsgContent.str new_content) }
    else th)

/-- A document of the `sql_reports_cache` collection.  Either field can be
absent.  Times are abstract units (the code uses datetimes and a
`timedelta(days=max_age_days)` cutoff; the comparison shape is unchanged). -/
structure CacheDoc where
  report_content : Option String
  cached_at : Option Int
  deriving BEq, DecidableEq, Repr

/-- `MongoManager.get_cached_sql_report` (lines 227-261): no document or no
`cached_at` field is a miss; otherwise the entry is served iff
`cached_time >= now - max_age` (the code computes
`expiry_date = now - timedelta(days=max_age_days)` and tests
`cached_time >= expiry_date`).  A storage error (not modelled) is also
treated as a miss. -/
def get_cached_sql_report (store : String → Option CacheDoc) (db_path : String)
    (max_age now : Int) : Option String :=
  match store db_path with
  | none => none
  | some doc =>
    match doc.cached_at with
    | none => none
    | some t => if now - max_age ≤ t then doc.report_content else none

/-! ### The credential provider (`api/llm/token_manager.py`)

The single-slot `TTLCache(maxsize=1, ttl=480)` is an optional
(token, insertion time) pair; a lookup at time `now` returns the entry iff
`now < insertion + 480`.  The HTTP request to the token endpoint is
abstracted as `fetch : Except String String` — the raised
`requests` exception, or the response body. -/

structure TokenConfig where
  static_api_key : Option String
  client_id : Option String
  client_secret : Option String
  token_url : Option String
  token_scope : Option String
  deriving Repr

abbrev TokenCache := Option (String × Int)

/-- 8-minute TTL (`8 * 60 = 480` seconds). -/
def tokenTTL : Int := 480

/-- `TTLCache.get("jwt_token")` at time `now`. -/
def cacheLookup (cache : TokenCache) (now : Int) : Option String :=
  match cache with
  | none => none
  | some (tok, t) => if now < t + tokenTTL then some tok else none

structure TokenOutcome where
  result : Except String String
  cache : TokenCache
  fetched : Bool
  deriving Repr

/-- Python `str.strip()`: drop leading and trailing whitespace. -/
def pyStrip (s : String) : String :=
  ⟨((s.data.dropWhile Char.isWhitespace).reverse.dropWhile Char.isWhitespace).reverse⟩

/-- `TokenManager._get_jwt_token` (lines 82-132): serve a truthy cached
token without a request; otherwise POST to the token endpoint (its request
formation from client id/secret/scope is inside `fetch`), re-raise a request
failure, strip the body, raise `ValueError` when empty, and on success store
the token in the slot (replacing any previous entry) and return it. -/
def get_jwt_token (cache : TokenCache) (now : Int)
    (fetch : Except String String) : TokenOutcome :=
  let cached := cacheLookup cache now
  if optTruthy cached then
    ⟨Except.ok (cached.getD ""), cache, false⟩
  else
    match fetch with
    | Except.error e => ⟨Except.error e, cache, true⟩
    | Except.ok body =>
      let tok := pyStrip body
      if tok == "" then
        ⟨Except.error "Token API returned an empty response.", cache, true⟩
      else
        ⟨Except.ok tok, some (tok, now), true⟩

/-- `TokenManager.get_token` (lines 64-80): a truthy static key is returned
unconditionally; with incomplete dynamic configuration an `EnvironmentError`
is raised; otherwise defer to `_get_jwt_token`. -/
def get_token (cfg : TokenConfig) (cache : TokenCache) (now : Int)
    (fetch : Except String String) : TokenOutcome :=
  if optTruthy cfg.static_api_key then
    ⟨Except.ok (cfg.static_api_key.getD ""), cache, false⟩
  else if !(optTruthy cfg.client_id) || !(optTruthy cfg.token_url) then
    ⟨Except.error "Dynamic token config incomplete. Missing 'LLM_ID' or 'TOKEN_API_URL'.",
      cache, false⟩
  else
    get_jwt_token cache now fetch

/-! ### The SQL execution adapter (`api/agent/tools/execute_sql_tool.py`)

The driver is abstracted as a `SqlEnv`: the outcome of opening the
connection and the outcome of `cursor.execute` (a driver-level error
message, or the resulting cursor contents).  The embedding's `ExecResult`
records, besides the returned string, which transaction operations ran:
whether `commit`/`rollback` were called, whether a connection was opened and
whether it was closed. -/

/-- Python truthiness of `config.get(k)` (`if not db_path:`). -/
def pyTruthy (v : Option PyVal) : Bool :=
  match v with
  | none => false
  | some (PyVal.str s) => !(s == "")
  | some (PyVal.int i) => !(i == 0)
  | some PyVal.null => false

/-- Python `str()` of a value, as an f-string interpolates it. -/
def pyValStr (v : PyVal) : String :=
  match v with
  | PyVal.str s => s
  | PyVal.int i => toString i
  | PyVal.null => "None"

/-- The cursor state after a successful `execute`: `cursor.description`
reduced to its column names (or `None`), the fetched rows (each row's
Python `repr`), and `cursor.rowcount` (`none` models a driver where reading
it raises, the fallback branch of `_format_results`). -/
structure Cursor where
  colNames : Option (List String)
  rows : List String
  rowcount : Option Int
  deriving BEq, DecidableEq, Repr

/-- Python `repr` of a list of strings, as `f"{column_names}"` renders it. -/
def pyReprStrList (l : List String) : String :=
  "[" ++ ", ".intercalate (l.map (fun s => "'" ++ s ++ "'")) ++ "]"

/-- Python `str(results)` for the fetched rows. -/
def pyReprRows (l : List String) : String :=
  "[" ++ ", ".intercalate l ++ "]"

/-- `_format_results` (lines 26-47). -/
def format_results (cur : Cursor) : String :=
  match cur.colNames with
  | some cols =>
    if cur.rows.isEmpty then
      "Query executed successfully, but returned no results."
    else
      "Columns: " ++ pyReprStrList cols ++ "\nData: " ++ pyReprRows cur.rows
  | none =>
    match cur.rowcount with
    | some rc => "Query executed successfully. Rows affected: " ++ toString rc
    | none => "Query executed successfully."

/-- Python's substring test `pat in s`, on the underlying character lists. -/
def strContainsAux (pat : List Char) : List Char → Bool
  | [] => pat.isEmpty
  | c :: rest => pat.isPrefixOf (c :: rest) || strContainsAux pat rest

def strContains (s pat : String) : Bool :=
  strContainsAux pat.data s.data

/-- The driver-level outcomes of one execution attempt. -/
structure SqlEnv where
  connect : Except String Unit
  exec : Except String Cursor
  deriving Repr

structure ExecResult where
  output : String
  committed : Bool
  rolledBack : Bool
  opened : Bool
  closed : Bool
  deriving BEq, DecidableEq, Repr

/-- `_execute_sqlite` (lines 50-72): missing `db_path` is an error string
with no connection; a connect failure is caught with `conn` still `None`
(nothing to close); an execute failure is caught and returned as an error
string with no `rollback` call; on success the code commits only when the
formatted result contains the substring `"Rows affected"`.  The `finally`
block closes the connection whenever one was opened. -/
def execute_sqlite (config : PyDict) (env : SqlEnv) : ExecResult :=
  if !(pyTruthy (dictGet config "db_path")) then
    ⟨"Error: 'db_path' not provided in connection_config for SQLite.",
      false, false, false, false⟩
  else
    match env.connect with
    | Except.error e => ⟨"An error occurred: " ++ e, false, false, false, false⟩
    | Except.ok _ =>
      match env.exec with
      | Except.error e => ⟨"An error occurred: " ++ e, false, false, true, true⟩
      | Except.ok cur =>
        let result := format_results cur
        ⟨result, strContains result "Rows affected", false, true, true⟩

/-- `_execute_postgresql` (lines 75-105): connect failure is caught with
`conn` `None` (no rollback, nothing to close); an execute failure rolls the
transaction back and returns an error string; a success is committed.  The
`finally` block closes the connection whenever one was opened. -/
def execute_postgresql (config : PyDict) (psycopg2Available : Bool)
    (env : SqlEnv) : ExecResult :=
  if !psycopg2Available then
    ⟨"Error: psycopg2 library is not installed.", false, false, false, false⟩
  else
    match env.connect with
    | Except.error e => ⟨"An error occurred: " ++ e, false, false, false, false⟩
    | Except.ok _ =>
      match env.exec with
      | Except.error e => ⟨"An error occurred: " ++ e, false, true, true, true⟩
      | Except.ok cur => ⟨format_results cur, true, false, true, true⟩

/-- `_execute_oracle` (lines 108-137): same transaction structure as the
PostgreSQL connector. -/
def execute_oracle (config : PyDict) (oracledbAvailable : Bool)
    (env : SqlEnv) : ExecResult :=
  if !oracledbAvailable then
    ⟨"Error: oracledb library is not installed.", false, false, false, false⟩
  else
    match env.connect with
    | Except.error e => ⟨"An error occurred: " ++ e, false, false, false, false⟩
    | Except.ok _ =>
      match env.exec with
      | Except.error e => ⟨"An error occurred: " ++ e, false, true, true, true⟩
      | Except.ok cur => ⟨format_results cur, true, false, true, true⟩

/-- `execute_sql_tool` (lines 140-185): dispatch on `db_type`. -/
def execute_sql_tool (config : PyDict) (psycopg2Available oracledbAvailable : Bool)
    (env : SqlEnv) : ExecResult :=
  let dbt := dictGet config "db_type"
  if !(pyTruthy dbt) then
    ⟨"Error: 'db_type' is missing from connection_config.", false, false, false, false⟩
  else if dbt == some (PyVal.str "sqlite") then
    execute_sqlite config env
  else if dbt == some (PyVal.str "postgresql") then
    execute_postgresql config psycopg2Available env
  else if dbt == some (PyVal.str "oracle") then
    execute_oracle config oracledbAvailable env
  else
    ⟨"Error: Unsupported 'db_type': " ++ pyValStr (dbt.getD PyVal.null)
        ++ ". Must be 'sqlite', 'postgresql', or 'oracle'.",
      false, false, false, false⟩

/-! ### Cache-key derivation
(`build/lib/api/agent/tools/sql_explorer_tool.py`, `_get_cache_key_from_config`)

`json.dumps(config, sort_keys=True)` is embedded as rendering the entries
sorted by key (string escaping inside values is not modelled; the values
occurring in connection descriptors need none). -/

/-- `json.dumps` rendering of one value. -/
def jsonRenderVal (v : PyVal) : String :=
  match v with
  | PyVal.str s => "\"" ++ s ++ "\""
  | PyVal.int i => toString i
  | PyVal.null => "null"

def jsonRenderEntry (e : String × PyVal) : String :=
  "\"" ++ e.1 ++ "\": " ++ jsonRenderVal e.2

def jsonRenderEntries : List (String × PyVal) → String
  | [] => ""
  | [e] => jsonRenderEntry e
  | e :: e2 :: rest => jsonRenderEntry e ++ ", " ++ jsonRenderEntries (e2 :: rest)

/-- `sort_keys=True`: the entries in ascending key order. -/
def sortKeys (cfg : PyDict) : PyDict :=
  List.insertionSort (fun a b => a.1 ≤ b.1) cfg

/-- `json.dumps(config, sort_keys=True)`. -/
def json_dumps_sorted (cfg : PyDict) : String :=
  "\x7b" ++ jsonRenderEntries (sortKeys cfg) ++ "\x7d"

/-- The networked-backend composite key
`f"{db_type}|{user}@{host}:{port}/{db}"` (lines 22-28). -/
def pgOracleKey (db_type : String) (config : PyDict) : String :=
  let host := dictGetD config "host" (dictGetD config "dsn" (PyVal.str "unknown_host"))
  let port := dictGetD config "port" (PyVal.str "default_port")
  let user := dictGetD config "user" (PyVal.str "unknown_user")
  let db := dictGetD config "dbname" (PyVal.str "unknown_db")
  db_type ++ "|" ++ pyValStr user ++ "@" ++ pyValStr host ++ ":"
    ++ pyValStr port ++ "/" ++ pyValStr db

/-- `_get_cache_key_from_config` (lines 15-31), with the source's
if/elif/else chain: the file path for SQLite, the composite (password-free)
key for PostgreSQL/Oracle, and the sorted JSON serialization of the whole
descriptor for every other `db_type`. -/
def get_cache_key_from_config (config : PyDict) : String :=
  let db_type := dictGet config "db_type"
  if db_type = some (PyVal.str "sqlite") then
    pyValStr (dictGetD config "db_path" (PyVal.str "sqlite_unknown"))
  else if db_type = some (PyVal.str "postgresql")
      ∨ db_type = some (PyVal.str "oracle") then
    pgOracleKey (pyValStr (db_type.getD PyVal.null)) config
  else
    json_dumps_sorted config

/-! ### Concrete fixtures used by the claim theorems and witnesses -/

/-- The parameter names of `answer_sql_query_tool`
(`api/agent/tools/answer_sql_query_tool.py`, line 9). -/
def answer_sql_query_tool_params : List String :=
  ["connection_config", "query", "database_report", "__thread_id", "__user_id"]

/-- `answer_sql_query_tool` as a registry entry.  Its body (a nested LLM
run) is unreachable under dispatch with model-supplied arguments, so it is
abstracted as returning an answer string; only the signature matters here. -/
def answer_sql_query_tool : Tool :=
  ⟨"answer_sql_query_tool", answer_sql_query_tool_params,
   fun _ => ToolOutcome.ok (some "the natural-language answer")⟩

/-- The argument mapping the model supplies for `answer_sql_query_tool`
(its exposed, non-hidden parameters). -/
def c1ModelArgs : PyDict :=
  [("connection_config", PyVal.str "cfg"), ("query", PyVal.str "q"),
   ("database_report", PyVal.str "rep")]

/-- A registered tool whose body returns `None`. -/
def silent_tool : Tool := ⟨"silent", [], fun _ => ToolOutcome.ok none⟩

/-- A concrete two-thread store for the C10 witness. -/
def c10Thread1 : Thread :=
  ⟨"t1", "First", "u1", "old", 5, [⟨1, "user", "u1", "text", MsgContent.str "hi", 5⟩]⟩

def c10Thread2 : Thread := ⟨"t2", "Second", "u2", "x", 6, []⟩

def c10Msg : DbMessage := ⟨2, "model", "LLM_Assistant", "text", MsgContent.str "hello", 9⟩

/-- A dynamic-only token configuration for the C7 witness. -/
def c7DynCfg : TokenConfig := ⟨none, some "client", some "secret", some "https://tok/", some "scope"⟩

/-- A static-key configuration for the C7 witness. -/
def c7StaticCfg : TokenConfig := ⟨some "KEY", none, none, none, none⟩

/-- A candidate requesting tools `a_tool` then `b_tool`, and an oracle that
always answers with it, for the C4 witness. -/
def c4Candidate : Candidate :=
  ⟨[Part.functionCall "a_tool" [], Part.functionCall "b_tool" []]⟩

def c4Oracle : Nat → ModelResponse := fun _ => ⟨[c4Candidate], none⟩

/-- A successful `SELECT`-shaped sqlite execution for the C3 counterexample:
the connection opens, the query returns one row. -/
def c3SelectEnv : SqlEnv :=
  ⟨Except.ok (), Except.ok ⟨some ["id"], ["(1,)"], some (-1)⟩⟩

def c3ErrorEnv : SqlEnv := ⟨Except.ok (), Except.error "no such table: x"⟩

def c3SqliteConfig : PyDict := [("db_path", PyVal.str "bank.db")]

/-- Replace the value stored under the `password` key (and nothing else):
`cfg.map (updPw p2)` is the descriptor that differs from `cfg` only in its
password field. -/
def updPw (p2 : String) (e : String × PyVal) : String × PyVal :=
  if e.1 = "password" then (e.1, PyVal.str p2) else e

/-- A PostgreSQL connection descriptor with a password, for the C9 witness. -/
def c9PgCfg : PyDict :=
  [("db_type", PyVal.str "postgresql"), ("user", PyVal.str "db_user"),
   ("password", PyVal.str "pw-a"), ("host", PyVal.str "localhost"),
   ("port", PyVal.int 5432), ("dbname", PyVal.str "sales_db")]

/-- A descriptor of an unsupported backend kind with a password, for the C9
witness. -/
def c9OtherCfg : PyDict :=
  [("db_type", PyVal.str "mysql"), ("password", PyVal.str "pw-a")]

/-! ## Claims -/

/-! ### C1: hidden-context injection -/

/-- C1: the dispatcher's injection step (`llm.py` lines 141-148) adds
`__thread_id` but never `__user_id`, so for `answer_sql_query_tool` — which
declares both hidden parameters — the invocation is missing the required
`__user_id` argument and the dispatch result is the caught-`TypeError`
error string instead of the tool's answer. -/
theorem C1_user_id_never_injected :
    dictGet (injectHiddenContext answer_sql_query_tool_params (some "thread-1")
        c1ModelArgs) "__thread_id" = some (PyVal.str "thread-1")
    ∧ dictGet (injectHiddenContext answer_sql_query_tool_params (some "thread-1")
        c1ModelArgs) "__user_id" = none
    ∧ dispatchToolCall [answer_sql_query_tool] (some "thread-1")
        "answer_sql_query_tool" c1ModelArgs
      = execErrorMsg "answer_sql_query_tool"
          ("missing or unexpected argument for answer_sql_query_tool") := by
  refine ⟨rfl, rfl, rfl⟩

/-! ### C2: cache TTL -/

/-- C2 counterexample: an entry exactly `max_age` old (here `d = max_age =
3`, `now = 10`, `cached_at = 7`) is still served, although the claim
requires `d < max_age` strictly and `None` otherwise. -/
theorem C2_counterexample :
    get_cached_sql_report
        (fun k => if k == "db" then some ⟨some "r", some 7⟩ else none)
        "db" 3 10 = some "r"
    ∧ ¬ ((10 : Int) - 7 < 3) := by
  refine ⟨rfl, by norm_num⟩

/-- C2 (amended): with an entry whose stored timestamp is `now - d` and
whose content is present, the read returns the content iff `d ≤ max_age`
(not-strictly less), and `None` when `d > max_age`; validity is decided at
read time from the stored timestamp. -/
theorem C2_cache_ttl (store : String → Option CacheDoc) (key : String)
    (max_age now d : Int) (doc : CacheDoc) (content : String)
    (hdoc : store key = some doc)
    (hts : doc.cached_at = some (now - d))
    (hc : doc.report_content = some content) :
    (get_cached_sql_report store key max_age now = some content ↔ d ≤ max_age)
    ∧ (max_age < d → get_cached_sql_report store key max_age now = none) := by
  simp only [get_cached_sql_report, hdoc, hts, hc]
  by_cases h : now - max_age ≤ now - d
  · have hd : d ≤ max_age := by omega
    simp [h, hd]
  · have hd : max_age < d := by omega
    simp [h]
    omega

/-- C2 witness: the amended theorem at a concrete fresh entry
(`d = 2 ≤ max_age = 5`). -/
theorem C2_cache_ttl_witness :
    get_cached_sql_report
        (fun k => if k == "db" then some ⟨some "r", some 8⟩ else none)
        "db" 5 10 = some "r" := by
  have h := C2_cache_ttl
    (fun k => if k == "db" then some ⟨some "r", some 8⟩ else none)
    "db" 5 10 2 ⟨some "r", some 8⟩ "r" rfl rfl rfl
  exact h.1.mpr (by norm_num)

/-! ### C5: total, exception-free dispatch -/

/-- C5: dispatch is total — an unknown name yields the descriptive
unknown-tool string, an invocation exception yields the descriptive
execution-error string, and a `None` result is coerced to `""`; every
dispatched request yields a string result. -/
theorem C5_dispatch_total (tools : List Tool) (thread_id : Option String)
    (name : String) (args : PyDict) :
    (tools.find? (fun t => t.name == name) = none →
      dispatchToolCall tools thread_id name args = unknownToolMsg name)
    ∧ (∀ t, tools.find? (fun t2 => t2.name == name) = some t →
        (∀ e, invokeTool t (injectHiddenContext t.params thread_id args)
            = ToolOutcome.exn e →
          dispatchToolCall tools thread_id name args = execErrorMsg name e)
        ∧ (invokeTool t (injectHiddenContext t.params thread_id args)
            = ToolOutcome.ok none →
          dispatchToolCall tools thread_id name args = "")
        ∧ (∀ s, invokeTool t (injectHiddenContext t.params thread_id args)
            = ToolOutcome.ok (some s) →
          dispatchToolCall tools thread_id name args = s)) := by
  constructor
  · intro h
    simp [dispatchToolCall, h]
  · intro t ht
    refine ⟨?_, ?_, ?_⟩
    · intro e he
      simp [dispatchToolCall, ht, he]
    · intro he
      simp [dispatchToolCall, ht, he]
    · intro s he
      simp [dispatchToolCall, ht, he]

/-- C5 witness: concrete dispatches — an unknown tool name and a
`None`-returning tool. -/
theorem C5_dispatch_total_witness :
    dispatchToolCall [] none "does_not_exist" [] = unknownToolMsg "does_not_exist"
    ∧ dispatchToolCall [silent_tool] none "silent" [] = "" := by
  constructor
  · exact (C5_dispatch_total [] none "does_not_exist" []).1 rfl
  · exact ((C5_dispatch_total [silent_tool] none "silent" []).2 silent_tool rfl).2.1 rfl

/-! ### C6: authentication failure aborts the run -/

/-- C6: when credential acquisition fails, `LLM.run` returns the fixed
user-facing authentication-error string and empty metadata, with an empty
event trace — no model-service call and no tool dispatch — and the failure
is absorbed, not re-raised. -/
theorem C6_auth_failure_aborts (e prompt : String) (max_calls : Nat)
    (tools : List Tool) (thread_id user_id : Option String)
    (oracle : Nat → ModelResponse) :
    llm_run (Except.error e) prompt max_calls tools thread_id user_id oracle
      = (authErrorMsg, RunMeta.empty, []) := rfl

/-! ### C8: idempotent full-text message update -/

lemma setFirstContent_idem (msgs : List DbMessage) (mid : Nat) (c : MsgContent) :
    setFirstContent (setFirstContent msgs mid c) mid c
      = setFirstContent msgs mid c := by
  induction msgs with
  | nil => rfl
  | cons m rest ih =>
    obtain ⟨mi, mr, mu, mt, mc, ms⟩ := m
    by_cases h : mi == mid
    · simp [setFirstContent, h]
    · simp [setFirstContent, h, ih]

lemma setFirstContent_any (msgs : List DbMessage) (mid : Nat) (c : MsgContent) :
    (setFirstContent msgs mid c).any (fun m => m.id == mid)
      = msgs.any (fun m => m.id == mid) := by
  induction msgs with
  | nil => rfl
  | cons m rest ih =>
    obtain ⟨mi, mr, mu, mt, mc, ms⟩ := m
    by_cases h : mi == mid
    · simp [setFirstContent, h]
    · simp [setFirstContent, h, ih]

/-- C8: `update_message_content` fully replaces the message content, so
applying it twice with the same thread, message id and text gives the same
store as applying it once. -/
theorem C8_update_message_idempotent (store : ThreadStore) (thread_id : String)
    (message_id : Nat) (new_text : String) :
    update_message_content
        (update_message_content store thread_id message_id new_text)
        thread_id message_id new_text
      = update_message_content store thread_id message_id new_text := by
  unfold update_message_content
  rw [List.map_map]
  apply List.map_congr_left
  intro th _
  obtain ⟨ti, tt, tu, tl, tts, tm⟩ := th
  by_cases h : (ti == thread_id && tm.any (fun m => m.id == message_id))
  · simp only [Function.comp_apply, h, if_pos]
    simp only [Bool.and_eq_true] at h
    simp [h.1, setFirstContent_any, h.2, setFirstContent_idem]
  · have h2 : ¬(ti = thread_id ∧ ∃ x ∈ tm, x.id = message_id) := by
      simpa [List.any_eq_true] using h
    simp [Function.comp_apply, h2]

/-! ### C10: frame of `create_message` -/

/-- C10: appending a message to a thread touches only that thread: the
matching thread keeps its `id`, `title` and `user_id`, its message list is
extended by the new message at the end (prior messages untouched), its
`last_message` becomes the first 100 characters of the content summary and
its `timestamp` the message's timestamp; every other thread is unchanged,
and the store keeps its shape position by position. -/
theorem C10_create_message_frame (store : ThreadStore) (thread_id : String)
    (msg : DbMessage) (i : Nat) (h : i < store.length)
    (h2 : i < (create_message store thread_id msg).length) :
    ((create_message store thread_id msg).get ⟨i, h2⟩).id = (store.get ⟨i, h⟩).id
    ∧ ((create_message store thread_id msg).get ⟨i, h2⟩).title
        = (store.get ⟨i, h⟩).title
    ∧ ((create_message store thread_id msg).get ⟨i, h2⟩).user_id
        = (store.get ⟨i, h⟩).user_id
    ∧ ((store.get ⟨i, h⟩).id = thread_id →
        ((create_message store thread_id msg).get ⟨i, h2⟩).messages
            = (store.get ⟨i, h⟩).messages ++ [msg]
        ∧ ((create_message store thread_id msg).get ⟨i, h2⟩).last_message
            = (lastMessageSummary msg.content).take 100
        ∧ ((create_message store thread_id msg).get ⟨i, h2⟩).timestamp
            = msg.timestamp)
    ∧ ((store.get ⟨i, h⟩).id ≠ thread_id →
        (create_message store thread_id msg).get ⟨i, h2⟩ = store.get ⟨i, h⟩) := by
  have hmap : (create_message store thread_id msg).get ⟨i, h2⟩
      = if (store.get ⟨i, h⟩).id == thread_id then
          { store.get ⟨i, h⟩ with
            messages := (store.get ⟨i, h⟩).messages ++ [msg],
            last_message := (lastMessageSummary msg.content).take 100,
            timestamp := msg.timestamp }
        else store.get ⟨i, h⟩ := by
    simp only [create_message, List.get_eq_getElem, List.getElem_map]
  rcases hth : store.get ⟨i, h⟩ with ⟨ti, tt, tu, tl, tts, tm⟩
  rw [hth] at hmap
  by_cases hid : ti = thread_id
  · have hb : (ti == thread_id) = true := beq_iff_eq.mpr hid
    rw [hmap, if_pos hb]
    refine ⟨rfl, rfl, rfl, fun _ => ⟨rfl, ?_, rfl⟩, fun hne => absurd hid hne⟩
    with_reducible rfl
  · have hb : ¬ (ti == thread_id) = true := by
      intro hb2
      exact hid (beq_iff_eq.mp hb2)
    rw [hmap, if_neg hb]
    exact ⟨rfl, rfl, rfl, fun heq => absurd heq hid, fun _ => rfl⟩

set_option maxRecDepth 8192 in
/-- C10 witness: the frame theorem evaluated on a concrete two-thread
store, at the matching thread and at the other thread. -/
theorem C10_create_message_frame_witness :
    ((create_message [c10Thread1, c10Thread2] "t1" c10Msg).get
        ⟨0, by simp [create_message]⟩).messages = c10Thread1.messages ++ [c10Msg]
    ∧ ((create_message [c10Thread1, c10Thread2] "t1" c10Msg).get
        ⟨0, by simp [create_message]⟩).last_message = "hello"
    ∧ (create_message [c10Thread1, c10Thread2] "t1" c10Msg).get
        ⟨1, by simp [create_message]⟩ = c10Thread2 := by
  have h0 := C10_create_message_frame [c10Thread1, c10Thread2] "t1" c10Msg 0
    (by simp) (by simp [create_message])
  have h1 := C10_create_message_frame [c10Thread1, c10Thread2] "t1" c10Msg 1
    (by simp) (by simp [create_message])
  refine ⟨(h0.2.2.2.1 rfl).1, ?_, (h1.2.2.2.2 (by decide)).trans (by rfl)⟩
  have h3 := (h0.2.2.2.1 rfl).2.1
  simpa [lastMessageSummary, c10Msg] using h3

/-! ### C7: credential resolution order -/

/-- C7: `get_token` resolves in priority order — a configured static key is
returned as-is with no fetch and no expiry check regardless of cache or
clock; otherwise (with dynamic configuration present) a cached token whose
age is within the 8-minute TTL is returned with no fetch; otherwise the
endpoint is consulted: the body is trimmed, an empty trimmed body is an
error, and a non-empty token is stored in the single slot (replacing any
previous entry) and returned. -/
theorem C7_get_token_order (cfg : TokenConfig) (cache : TokenCache) (now : Int)
    (fetch : Except String String) :
    (optTruthy cfg.static_api_key = true →
      get_token cfg cache now fetch
        = ⟨Except.ok (cfg.static_api_key.getD ""), cache, false⟩)
    ∧ (optTruthy cfg.static_api_key = false →
       optTruthy cfg.client_id = true →
       optTruthy cfg.token_url = true →
        (∀ tok t, cache = some (tok, t) → now < t + tokenTTL → tok ≠ "" →
          get_token cfg cache now fetch = ⟨Except.ok tok, cache, false⟩)
        ∧ (optTruthy (cacheLookup cache now) = false →
            (∀ body, fetch = Except.ok body → pyStrip body = "" →
              get_token cfg cache now fetch
                = ⟨Except.error "Token API returned an empty response.", cache, true⟩)
            ∧ (∀ body, fetch = Except.ok body → pyStrip body ≠ "" →
              get_token cfg cache now fetch
                = ⟨Except.ok (pyStrip body), some (pyStrip body, now), true⟩))) := by
  constructor
  · intro hs
    simp only [get_token, hs, if_true]
  · intro hs hid hurl
    have hdyn : ∀ x : TokenOutcome,
        get_token cfg cache now fetch = x ↔ get_jwt_token cache now fetch = x := by
      intro x
      simp only [get_token, hs, hid, hurl, Bool.not_true, Bool.or_self,
        if_false, Bool.false_eq_true]
    constructor
    · intro tok t hcache hfresh htok
      rw [hdyn]
      have hlook : cacheLookup cache now = some tok := by
        simp [cacheLookup, hcache, if_pos hfresh]
      simp [get_jwt_token, hlook, optTruthy, htok]
    · intro hmiss
      constructor
      · intro body hf hempty
        rw [hdyn]
        simp [get_jwt_token, hmiss, hf, hempty]
      · intro body hf hnonempty
        rw [hdyn]
        simp [get_jwt_token, hmiss, hf, hnonempty]

/-- C7 witness: the resolution-order theorem at concrete states — the
static key wins even over a fresh cache; a fresh cached token is served
without a fetch; a fetched body is trimmed and stored. -/
theorem C7_get_token_order_witness :
    get_token c7StaticCfg (some ("cached", 0)) 10 (Except.ok "other")
        = ⟨Except.ok "KEY", some ("cached", 0), false⟩
    ∧ get_token c7DynCfg (some ("cached", 0)) 100 (Except.error "down")
        = ⟨Except.ok "cached", some ("cached", 0), false⟩
    ∧ get_token c7DynCfg none 0 (Except.ok " tok \n")
        = ⟨Except.ok "tok", some ("tok", 0), true⟩ := by
  refine ⟨(C7_get_token_order c7StaticCfg (some ("cached", 0)) 10
      (Except.ok "other")).1 (by decide), ?_, ?_⟩
  · exact ((C7_get_token_order c7DynCfg (some ("cached", 0)) 100
      (Except.error "down")).2 (by decide) (by decide) (by decide)).1
      "cached" 0 rfl (by decide) (by decide)
  · have h := (((C7_get_token_order c7DynCfg none 0 (Except.ok " tok \n")).2
      (by decide) (by decide) (by decide)).2 (by decide)).2 " tok \n" rfl
      (by decide)
    simpa [pyStrip] using h

/-! ### C4: tool-call batching in one turn -/

lemma processToolCalls_eq (tools : List Tool) (thread_id : Option String)
    (calls : List (String × PyDict)) :
    processToolCalls tools thread_id calls =
      (calls.map (fun c =>
          Part.functionResponse c.1 (dispatchToolCall tools thread_id c.1 c.2)),
       calls.map (fun c => (c, dispatchToolCall tools thread_id c.1 c.2)),
       calls.map (fun c => Event.toolDispatch c.1 c.2)) := by
  suffices hgen : ∀ (cs : List (String × PyDict))
      (acc : List Part × List ((String × PyDict) × String) × List Event),
      cs.foldl
        (fun acc c =>
          let res := dispatchToolCall tools thread_id c.1 c.2
          (acc.1 ++ [Part.functionResponse c.1 res],
           acc.2.1 ++ [(c, res)],
           acc.2.2 ++ [Event.toolDispatch c.1 c.2])) acc
      = (acc.1 ++ cs.map (fun c =>
            Part.functionResponse c.1 (dispatchToolCall tools thread_id c.1 c.2)),
         acc.2.1 ++ cs.map (fun c => (c, dispatchToolCall tools thread_id c.1 c.2)),
         acc.2.2 ++ cs.map (fun c => Event.toolDispatch c.1 c.2)) by
    simpa [processToolCalls] using hgen calls ([], [], [])
  intro cs
  induction cs with
  | nil => intro acc; simp
  | cons c rest ih =>
    intro acc
    simp [List.foldl_cons, ih]

/-- C4: a model turn whose candidate carries tool-call requests makes the
loop dispatch every request in order (the dispatch events extend the trace
in request order), append exactly one `tool`-role message bundling all the
results in request order, and continue into the next iteration — it never
ends the run and never appends a second tool message for the turn. -/
theorem C4_tool_turn_batching (tools : List Tool) (thread_id : Option String)
    (oracle : Nat → ModelResponse) (i fuel : Nat)
    (msgs : List Message) (steps : List ((String × PyDict) × String))
    (ev : List Event) (calls : Nat) (cand : Candidate) (rest : List Candidate)
    (hc : (oracle i).candidates = cand :: rest)
    (hfc : extractFuncCalls cand ≠ []) :
    runLoopAux tools thread_id oracle i (fuel + 1) msgs steps ev calls
      = runLoopAux tools thread_id oracle (i + 1) fuel
          (msgs ++ [⟨"tool",
            (extractFuncCalls cand).map (fun c =>
              Part.functionResponse c.1 (dispatchToolCall tools thread_id c.1 c.2))⟩])
          (steps ++ (extractFuncCalls cand).map (fun c =>
              (c, dispatchToolCall tools thread_id c.1 c.2)))
          (ev ++ [Event.modelCall i] ++ (extractFuncCalls cand).map (fun c =>
              Event.toolDispatch c.1 c.2))
          (calls + 1) := by
  obtain ⟨fc, fcs, hl⟩ : ∃ fc fcs, extractFuncCalls cand = fc :: fcs := by
    cases hfcs : extractFuncCalls cand with
    | nil => exact absurd hfcs hfc
    | cons a l => exact ⟨a, l, rfl⟩
  simp only [runLoopAux, hc, hl, processToolCalls_eq]

/-- C4 witness: the batching theorem at a concrete turn with two requested
tools and an empty registry. -/
theorem C4_tool_turn_batching_witness :
    runLoopAux [] none c4Oracle 0 1 [] [] [] 0
      = runLoopAux [] none c4Oracle 1 0
          ([] ++ [⟨"tool",
            (extractFuncCalls c4Candidate).map (fun c =>
              Part.functionResponse c.1 (dispatchToolCall [] none c.1 c.2))⟩])
          ([] ++ (extractFuncCalls c4Candidate).map (fun c =>
              (c, dispatchToolCall [] none c.1 c.2)))
          ([] ++ [Event.modelCall 0] ++ (extractFuncCalls c4Candidate).map (fun c =>
              Event.toolDispatch c.1 c.2))
          (0 + 1) :=
  C4_tool_turn_batching [] none c4Oracle 0 0 [] [] [] 0 c4Candidate [] rfl (by decide)

/-! ### C3: transactionality of the SQL adapter -/

/-- C3 counterexample: on the SQLite backend a successful row-returning
execution is NOT committed (the code commits only when the result text
contains "Rows affected"), and a driver-level error is NOT rolled back (the
SQLite connector has no rollback call) — refuting commit-on-success and
rollback-on-error for every backend. -/
theorem C3_counterexample :
    (execute_sqlite c3SqliteConfig c3SelectEnv).output
        = "Columns: ['id']\nData: [(1,)]"
    ∧ (execute_sqlite c3SqliteConfig c3SelectEnv).committed = false
    ∧ (execute_sqlite c3SqliteConfig c3ErrorEnv).output
        = "An error occurred: no such table: x"
    ∧ (execute_sqlite c3SqliteConfig c3ErrorEnv).rolledBack = false := by
  refine ⟨rfl, by decide, rfl, by decide⟩

/-- C3 (amended): the PostgreSQL and Oracle connectors are transactional as
claimed — commit on success, rollback plus error string on driver error —
and all three connectors close the connection on every exit path on which
one was opened; the SQLite connector, however, commits only when the
formatted result contains "Rows affected" and never rolls back on error. -/
theorem C3_transactionality (config : PyDict) (env : SqlEnv) (cur : Cursor)
    (e : String) :
    (env.connect = Except.ok () → env.exec = Except.ok cur →
      execute_postgresql config true env
        = ⟨format_results cur, true, false, true, true⟩)
    ∧ (env.connect = Except.ok () → env.exec = Except.error e →
      execute_postgresql config true env
        = ⟨"An error occurred: " ++ e, false, true, true, true⟩)
    ∧ (env.connect = Except.ok () → env.exec = Except.ok cur →
      execute_oracle config true env
        = ⟨format_results cur, true, false, true, true⟩)
    ∧ (env.connect = Except.ok () → env.exec = Except.error e →
      execute_oracle config true env
        = ⟨"An error occurred: " ++ e, false, true, true, true⟩)
    ∧ (pyTruthy (dictGet config "db_path") = true → env.connect = Except.ok () →
       env.exec = Except.ok cur →
      execute_sqlite config env
        = ⟨format_results cur,
           strContains (format_results cur) "Rows affected", false, true, true⟩)
    ∧ (pyTruthy (dictGet config "db_path") = true → env.connect = Except.ok () →
       env.exec = Except.error e →
      execute_sqlite config env
        = ⟨"An error occurred: " ++ e, false, false, true, true⟩)
    ∧ ((execute_sqlite config env).opened = true →
        (execute_sqlite config env).closed = true)
    ∧ ((execute_postgresql config true env).opened = true →
        (execute_postgresql config true env).closed = true)
    ∧ ((execute_oracle config true env).opened = true →
        (execute_oracle config true env).closed = true) := by
  obtain ⟨hconn, hexec⟩ := env
  refine ⟨?_, ?_, ?_, ?_, ?_, ?_, ?_, ?_, ?_⟩
  · intro h1 h2
    subst h1; subst h2
    simp [execute_postgresql]
  · intro h1 h2
    subst h1; subst h2
    simp [execute_postgresql]
  · intro h1 h2
    subst h1; subst h2
    simp [execute_oracle]
  · intro h1 h2
    subst h1; subst h2
    simp [execute_oracle]
  · intro h1 h2 h3
    subst h2; subst h3
    simp [execute_sqlite, h1]
  · intro h1 h2 h3
    subst h2; subst h3
    simp [execute_sqlite, h1]
  · intro hopen
    by_cases hdb : pyTruthy (dictGet config "db_path") = false
    · simp_all [execute_sqlite]
    · cases hconn <;> cases hexec <;> simp_all [execute_sqlite]
  · intro hopen
    cases hconn <;> cases hexec <;> simp_all [execute_postgresql]
  · intro hopen
    cases hconn <;> cases hexec <;> simp_all [execute_oracle]

/-- C3 witness: the amended transactionality facts at concrete
environments — a committed PostgreSQL success and a rolled-back PostgreSQL
error, against the non-committing successful SQLite SELECT. -/
theorem C3_transactionality_witness :
    execute_postgresql [] true c3SelectEnv
      = ⟨"Columns: ['id']\nData: [(1,)]", true, false, true, true⟩
    ∧ execute_postgresql [] true c3ErrorEnv
      = ⟨"An error occurred: no such table: x", false, true, true, true⟩
    ∧ execute_sqlite c3SqliteConfig c3ErrorEnv
      = ⟨"An error occurred: no such table: x", false, false, true, true⟩ := by
  refine ⟨?_, ?_, ?_⟩
  · have h := (C3_transactionality [] c3SelectEnv
      ⟨some ["id"], ["(1,)"], some (-1)⟩ "e").1 rfl rfl
    simpa using h
  · exact (C3_transactionality [] c3ErrorEnv ⟨none, [], none⟩
      "no such table: x").2.1 rfl rfl
  · exact (C3_transactionality c3SqliteConfig c3ErrorEnv ⟨none, [], none⟩
      "no such table: x").2.2.2.2.2.1 (by decide) rfl rfl

/-! ### C9: password (non-)dependence of the cache key -/

lemma updPw_fst (p2 : String) (e : String × PyVal) : (updPw p2 e).1 = e.1 := by
  unfold updPw
  split <;> rfl

lemma dictGet_map_updPw (cfg : PyDict) (p2 : String) (k : String)
    (hk : k ≠ "password") :
    dictGet (cfg.map (updPw p2)) k = dictGet cfg k := by
  induction cfg with
  | nil => rfl
  | cons e rest ih =>
    by_cases he : e.1 == k
    · have hek : e.1 = k := beq_iff_eq.mp he
      have h1 : e.1 ≠ "password" := fun hc => hk (hek.symm.trans hc)
      have hupd : updPw p2 e = e := by simp [updPw, h1]
      simp [dictGet, List.find?, hupd, he] at ih ⊢
    · have hfst : ((updPw p2 e).1 == k) = false := by
        rw [updPw_fst]
        exact beq_eq_false_iff_ne.mpr (fun hc => he (beq_iff_eq.mpr hc))
      have hfalse : (e.1 == k) = false :=
        beq_eq_false_iff_ne.mpr (fun hc => he (beq_iff_eq.mpr hc))
      simp only [dictGet, List.map_cons, List.find?] at ih ⊢
      rw [hfst, hfalse]
      exact ih

lemma dictGetD_map_updPw (cfg : PyDict) (p2 : String) (k : String)
    (d : PyVal) (hk : k ≠ "password") :
    dictGetD (cfg.map (updPw p2)) k d = dictGetD cfg k d := by
  unfold dictGetD
  rw [dictGet_map_updPw cfg p2 k hk]

lemma pgOracleKey_map_updPw (t : String) (cfg : PyDict) (p2 : String) :
    pgOracleKey t (cfg.map (updPw p2)) = pgOracleKey t cfg := by
  unfold pgOracleKey
  rw [dictGetD_map_updPw cfg p2 "dsn" _ (by decide),
    dictGetD_map_updPw cfg p2 "host" _ (by decide),
    dictGetD_map_updPw cfg p2 "port" _ (by decide),
    dictGetD_map_updPw cfg p2 "user" _ (by decide),
    dictGetD_map_updPw cfg p2 "dbname" _ (by decide)]

lemma sortKeys_map_updPw (cfg : PyDict) (p2 : String) :
    sortKeys (cfg.map (updPw p2)) = (sortKeys cfg).map (updPw p2) := by
  unfold sortKeys
  exact (List.map_insertionSort (fun (a b : String × PyVal) => a.1 ≤ b.1)
    (fun (a b : String × PyVal) => a.1 ≤ b.1) (updPw p2) cfg
    (fun a _ b _ => by simp only [updPw_fst])).symm

lemma map_updPw_of_not_mem (l : PyDict) (p2 : String)
    (h : "password" ∉ l.map Prod.fst) : l.map (updPw p2) = l := by
  induction l with
  | nil => rfl
  | cons e rest ih =>
    simp only [List.map_cons, List.mem_cons, not_or] at h
    have h1 : e.1 ≠ "password" := fun hc => h.1 hc.symm
    simp [updPw, h1, ih h.2]

lemma string_data_inj (s t : String) (h : s.data = t.data) : s = t := by
  cases s
  cases t
  exact congrArg String.mk (by simpa using h)

lemma string_append_left_cancel (a x y : String) (h : a ++ x = a ++ y) :
    x = y := by
  have hd : a.data ++ x.data = a.data ++ y.data := by
    simpa [String.data_append] using congrArg String.data h
  exact string_data_inj x y (List.append_cancel_left hd)

lemma jsonRenderEntries_cons_of_ne (e : String × PyVal) (l : PyDict)
    (h : l ≠ []) :
    jsonRenderEntries (e :: l) = jsonRenderEntry e ++ ", " ++ jsonRenderEntries l := by
  cases l with
  | nil => exact absurd rfl h
  | cons a as => rfl

lemma renderEntries_pw_head_inj (t : PyDict) (p1 p2 : String)
    (h : jsonRenderEntries (("password", PyVal.str p1) :: t)
       = jsonRenderEntries (("password", PyVal.str p2) :: t)) : p1 = p2 := by
  cases t with
  | nil =>
    have hd := congrArg String.data h
    simp only [jsonRenderEntries, jsonRenderEntry, jsonRenderVal,
      String.data_append, List.append_assoc] at hd
    have h1 := List.append_cancel_left hd
    have h2 := List.append_cancel_left h1
    have h3 := List.append_cancel_left h2
    have h4 := List.append_cancel_left h3
    exact string_data_inj p1 p2 (List.append_cancel_right h4)
  | cons q qs =>
    have hd := congrArg String.data h
    simp only [jsonRenderEntries_cons_of_ne _ (q :: qs) (by simp),
      jsonRenderEntry, jsonRenderVal, String.data_append,
      List.append_assoc] at hd
    have h1 := List.append_cancel_left hd
    have h2 := List.append_cancel_left h1
    have h3 := List.append_cancel_left h2
    have h4 := List.append_cancel_left h3
    exact string_data_inj p1 p2 (List.append_cancel_right h4)

lemma renderEntries_pw_ne (s t : PyDict) (p1 p2 : String) (hne : p1 ≠ p2) :
    jsonRenderEntries (s ++ ("password", PyVal.str p1) :: t)
      ≠ jsonRenderEntries (s ++ ("password", PyVal.str p2) :: t) := by
  induction s with
  | nil =>
    intro h
    exact hne (renderEntries_pw_head_inj t p1 p2 h)
  | cons e es ih =>
    intro h
    rw [List.cons_append, List.cons_append,
      jsonRenderEntries_cons_of_ne e _ (by simp),
      jsonRenderEntries_cons_of_ne e _ (by simp)] at h
    exact ih (string_append_left_cancel _ _ _ h)

lemma json_dumps_sorted_pw_ne (cfg : PyDict) (p1 p2 : String)
    (hnodup : (cfg.map Prod.fst).Nodup)
    (hp : dictGet cfg "password" = some (PyVal.str p1))
    (hne : p1 ≠ p2) :
    json_dumps_sorted (cfg.map (updPw p2)) ≠ json_dumps_sorted cfg := by
  obtain ⟨e, hf, he2⟩ : ∃ e, cfg.find? (fun e => e.1 == "password") = some e
      ∧ e.2 = PyVal.str p1 := by
    unfold dictGet at hp
    cases hfind : cfg.find? (fun e => e.1 == "password") with
    | none => rw [hfind] at hp; exact absurd hp (by simp)
    | some e =>
      rw [hfind] at hp
      exact ⟨e, rfl, by simpa using hp⟩
  have hpa := List.find?_some hf
  have he1 : e.1 = "password" := beq_iff_eq.mp (by simpa using hpa)
  have hee : e = ("password", PyVal.str p1) := by
    obtain ⟨k, v⟩ := e
    simp only at he1 he2
    rw [he1, he2]
  have hmemcfg : ("password", PyVal.str p1) ∈ cfg :=
    hee ▸ List.mem_of_find?_eq_some hf
  have hmem : ("password", PyVal.str p1) ∈ sortKeys cfg := by
    unfold sortKeys
    exact (List.mem_insertionSort _).mpr hmemcfg
  obtain ⟨s, t, hst⟩ := List.append_of_mem hmem
  have hperm : List.Perm (sortKeys cfg) cfg := List.perm_insertionSort _ cfg
  have hnodup2 : ((sortKeys cfg).map Prod.fst).Nodup :=
    ((hperm.map Prod.fst).nodup_iff).mpr hnodup
  rw [hst, List.map_append, List.map_cons, List.nodup_middle] at hnodup2
  have hnm := (List.nodup_cons.mp hnodup2).1
  have hs1 : "password" ∉ s.map Prod.fst := fun hc =>
    hnm (List.mem_append.mpr (Or.inl hc))
  have hs2 : "password" ∉ t.map Prod.fst := fun hc =>
    hnm (List.mem_append.mpr (Or.inr hc))
  have hmap2 : (sortKeys cfg).map (updPw p2)
      = s ++ ("password", PyVal.str p2) :: t := by
    rw [hst, List.map_append, List.map_cons,
      map_updPw_of_not_mem s p2 hs1, map_updPw_of_not_mem t p2 hs2]
    simp [updPw]
  have hsortmap : sortKeys (cfg.map (updPw p2))
      = s ++ ("password", PyVal.str p2) :: t := by
    rw [sortKeys_map_updPw, hmap2]
  intro hcontra
  unfold json_dumps_sorted at hcontra
  rw [hsortmap, hst] at hcontra
  have hmid : jsonRenderEntries (s ++ ("password", PyVal.str p2) :: t)
      = jsonRenderEntries (s ++ ("password", PyVal.str p1) :: t) := by
    have hd := congrArg String.data hcontra
    simp only [String.data_append, List.append_assoc] at hd
    exact string_data_inj _ _
      (List.append_cancel_right (List.append_cancel_left hd))
  exact renderEntries_pw_ne s t p1 p2 hne hmid.symm

/-- C9: cache-key derivation and the password.  For a PostgreSQL/Oracle
descriptor the derived key is unchanged when only the password differs (the
key reads only `db_type`, `user`, `host`/`dsn`, `port`, `dbname`); for a
descriptor whose `db_type` is outside sqlite/postgresql/oracle the key is
the sorted JSON serialization of the whole descriptor, so two descriptors
that differ only in their (string) password value yield different keys. -/
theorem C9_cache_key_password_dependence (cfg : PyDict) (p1 p2 : String)
    (hnodup : (cfg.map Prod.fst).Nodup)
    (hp : dictGet cfg "password" = some (PyVal.str p1)) :
    ((dictGet cfg "db_type" = some (PyVal.str "postgresql")
        ∨ dictGet cfg "db_type" = some (PyVal.str "oracle")) →
      get_cache_key_from_config (cfg.map (updPw p2))
        = get_cache_key_from_config cfg)
    ∧ ((∀ v, dictGet cfg "db_type" = some v →
          v ≠ PyVal.str "sqlite" ∧ v ≠ PyVal.str "postgresql"
            ∧ v ≠ PyVal.str "oracle") →
       p1 ≠ p2 →
       get_cache_key_from_config (cfg.map (updPw p2))
         ≠ get_cache_key_from_config cfg) := by
  have hdb : dictGet (cfg.map (updPw p2)) "db_type" = dictGet cfg "db_type" :=
    dictGet_map_updPw cfg p2 "db_type" (by decide)
  constructor
  · intro hpg
    have hnotsq : dictGet cfg "db_type" ≠ some (PyVal.str "sqlite") := by
      rcases hpg with h | h <;> rw [h] <;> simp
    unfold get_cache_key_from_config
    rw [hdb, if_neg hnotsq, if_neg hnotsq, if_pos hpg, if_pos hpg]
    exact pgOracleKey_map_updPw _ cfg p2
  · intro hother hne
    have hc1 : dictGet cfg "db_type" ≠ some (PyVal.str "sqlite") := by
      intro hc
      exact (hother _ hc).1 rfl
    have hc2 : ¬ (dictGet cfg "db_type" = some (PyVal.str "postgresql")
        ∨ dictGet cfg "db_type" = some (PyVal.str "oracle")) := by
      rintro (hc | hc)
      · exact (hother _ hc).2.1 rfl
      · exact (hother _ hc).2.2 rfl
    unfold get_cache_key_from_config
    rw [hdb, if_neg hc1, if_neg hc1, if_neg hc2, if_neg hc2]
    exact json_dumps_sorted_pw_ne cfg p1 p2 hnodup hp hne

/-- C9 witness: concrete descriptors — changing only the password leaves
the PostgreSQL key unchanged but changes the fallback JSON key. -/
theorem C9_cache_key_password_dependence_witness :
    get_cache_key_from_config (c9PgCfg.map (updPw "pw-b"))
      = get_cache_key_from_config c9PgCfg
    ∧ get_cache_key_from_config (c9OtherCfg.map (updPw "pw-b"))
      ≠ get_cache_key_from_config c9OtherCfg := by
  constructor
  · exact (C9_cache_key_password_dependence c9PgCfg "pw-a" "pw-b"
      (by decide) (by decide)).1 (Or.inl (by decide))
  · exact (C9_cache_key_password_dependence c9OtherCfg "pw-a" "pw-b"
      (by decide) (by decide)).2 (by decide) (by decide)

end AiAgent
